import Mathlib

/-!
Verification of the data-callback contract of the smart-wallet playground.

The development shallowly embeds the POST handler of
src/app/api/data-callback/route.ts (a validation-and-echo handler over JSON
bodies) and the client-side submit gate of
src/app/components/DataCallback.tsx, and proves the documented properties
of the request/validation/response contract against those embeddings.

JSON values are modelled by the inductive type Json. JavaScript truthiness
(empty strings and zero are falsy, objects and arrays are truthy) and
exceptions (modelled by Except, with the catch block of the handler mapping
any thrown exception to the generic server error body) are made explicit,
because the handler relies on both.
-/

namespace SmartWalletPlayground

/-- A JSON value as produced by JSON.parse. Object fields are kept in
insertion order; duplicate keys are possible, and property lookup follows
JSON.parse semantics where the last duplicate wins. -/
inductive Json where
  | null
  | bool (b : Bool)
  | num (n : Int)
  | str (s : String)
  | arr (elems : List Json)
  | obj (fields : List (String × Json))
deriving Repr

/-- Whether a JSON value is the null literal. Property access on null
throws a TypeError in JavaScript. -/
def isNull : Json → Bool
  | Json.null => true
  | _ => false

/-- JavaScript truthiness of a JSON value. -/
def truthy : Json → Bool
  | Json.null => false
  | Json.bool b => b
  | Json.num n => n != 0
  | Json.str s => s != ""
  | Json.arr _ => true
  | Json.obj _ => true

/-- Truthiness of a possibly-undefined value (`none` models undefined). -/
def truthyOpt : Option Json → Bool
  | none => false
  | some j => truthy j

/-- Field lookup in an object field list. A later binding for the same key
wins, matching JSON.parse, which keeps the last duplicate key. -/
def lookupField : List (String × Json) → String → Option Json
  | [], _ => none
  | (k, v) :: rest, key =>
    match lookupField rest key with
    | some w => some w
    | none => if k = key then some v else none

/-- Property access `j.key` on a value that is known not to be null:
objects yield their field (or undefined), other values have no such
property. Access on null throws and is handled separately. -/
def getProp : Json → String → Option Json
  | Json.obj fields, key => lookupField fields key
  | _, _ => none

/-- Optional chaining `v?.key`: undefined and null short-circuit to
undefined, every other value is read with getProp. -/
def optChain : Option Json → String → Option Json
  | none, _ => none
  | some Json.null, _ => none
  | some j, key => getProp j key

/-- JavaScript String.prototype.endsWith, as a suffix test on the character
sequences. -/
def jsEndsWith (s suffix : String) : Bool :=
  suffix.data.isSuffixOf s.data

/-- The `.length` property as read by the handler: defined for strings and
arrays, undefined otherwise. -/
def jsLength : Json → Option Nat
  | Json.str s => some s.length
  | Json.arr elems => some elems.length
  | _ => none

/-- Body `{errors: {server: "Server error validating data"}}` produced by
the catch block. -/
def serverErrorBody : Json :=
  Json.obj [("errors", Json.obj [("server", Json.str "Server error validating data")])]

/-- Body `{errors: {server: "Missing required fields"}}`. -/
def missingFieldsBody : Json :=
  Json.obj [("errors", Json.obj [("server", Json.str "Missing required fields")])]

/-- Body `{errors: {server: "Missing dataCallback capability"}}`. -/
def missingCapabilityBody : Json :=
  Json.obj [("errors", Json.obj [("server", Json.str "Missing dataCallback capability")])]

/-- The entry the email rule adds to the error map. -/
def emailErrorEntry : String × Json :=
  ("email", Json.str "Example.com emails are not allowed")

/-- The entry the postal-code rule adds to the error map. -/
def postalCodeErrorEntry : String × Json :=
  ("physicalAddress", Json.obj [("postalCode", Json.str "Invalid postal code")])

/-- Embedding of the email validation (route.ts lines 69-72):
`if (requestedInfo.email && requestedInfo.email.endsWith(@example.com))`.
A truthy non-string email makes `.endsWith` undefined, so the call throws;
this is the `.error` case. -/
def emailCheck (requestedInfo : Json) : Except Unit (List (String × Json)) :=
  match getProp requestedInfo "email" with
  | some e =>
    if truthy e then
      match e with
      | Json.str s =>
        Except.ok (if jsEndsWith s "@example.com" then [emailErrorEntry] else [])
      | _ => Except.error ()
    else Except.ok []
  | none => Except.ok []

/-- Embedding of the physical-address validation (route.ts lines 74-81):
`if (addr.postalCode && addr.postalCode.length < 5)`. Reading `.length` of
a value without that property yields undefined, and `undefined < 5` is
false, so this check never throws. -/
def physicalAddressCheck (requestedInfo : Json) : List (String × Json) :=
  match getProp requestedInfo "physicalAddress" with
  | some addr =>
    if truthy addr then
      match getProp addr "postalCode" with
      | some pc =>
        if truthy pc then
          match jsLength pc with
          | some len => if len < 5 then [postalCodeErrorEntry] else []
          | none => []
        else []
      | none => []
    else []
  | none => []

/-- The success body `{calls, chainId, version, capabilities}` echoing the
corresponding properties of the request (route.ts lines 49-54 and 93-98). -/
def echoBody (requestData : Json) : Json :=
  Json.obj [("calls", (getProp requestData "calls").getD Json.null),
            ("chainId", (getProp requestData "chainId").getD Json.null),
            ("version", (getProp requestData "version").getD Json.null),
            ("capabilities", (getProp requestData "capabilities").getD Json.null)]

/-- Embedding of the try block of POST in
src/app/api/data-callback/route.ts (lines 21-104). `Except.error ()` models
a thrown exception reaching the catch block: property access on a null
request body, or calling `.endsWith` on a truthy non-string email. -/
def postTry (requestData : Json) : Except Unit Json :=
  if isNull requestData then Except.error ()
  else
    let calls := getProp requestData "calls"
    let chainId := getProp requestData "chainId"
    let version := getProp requestData "version"
    if !(truthyOpt calls && truthyOpt chainId && truthyOpt version) then
      Except.ok missingFieldsBody
    else
      let dataCallback := optChain (getProp requestData "capabilities") "dataCallback"
      if !truthyOpt dataCallback then Except.ok missingCapabilityBody
      else
        let requestedInfo := optChain dataCallback "requestedInfo"
        if !truthyOpt requestedInfo then Except.ok (echoBody requestData)
        else
          let ri := requestedInfo.getD Json.null
          match emailCheck ri with
          | Except.error () => Except.error ()
          | Except.ok emailErrors =>
            let errors := emailErrors ++ physicalAddressCheck ri
            if errors.length > 0 then Except.ok (Json.obj [("errors", Json.obj errors)])
            else Except.ok (echoBody requestData)

/-- Parsing plus the try block: `none` models a request body that is not
valid JSON, where `request.json()` rejects inside the try block. -/
def handleBody : Option Json → Except Unit Json
  | none => Except.error ()
  | some requestData => postTry requestData

/-- The POST handler of src/app/api/data-callback/route.ts as a function
from the (parsed) request body to the JSON response body. The catch block
(lines 105-116) converts every thrown exception into the generic server
error body. -/
def POST (body : Option Json) : Json :=
  match handleBody body with
  | Except.ok response => response
  | Except.error _ => serverErrorBody

example : POST none = serverErrorBody := rfl
example : POST (some (Json.obj [])) = missingFieldsBody := rfl
example : POST (some Json.null) = serverErrorBody := rfl

/-! ## Structured (well-typed) requests

The TypeScript types CallbackRequest and RequestedInfo, with their JSON
encodings. Optional TypeScript fields are Option-valued and are omitted
from the encoded object when absent. The capabilities objects additionally
carry `extra` field lists for keys beyond the ones the handler interprets,
since the handler echoes the capabilities object verbatim. -/

/-- An entry of the `calls` array: `{to, data}`. The source field `to` is
a reserved word in Lean and is called `toAddr` here. -/
structure Call where
  toAddr : String
  data : String
deriving DecidableEq, Repr

/-- The `phoneNumber` object of RequestedInfo. -/
structure PhoneNumber where
  number : String
  country : String
  isPrimary : Bool
deriving DecidableEq, Repr

/-- The `{firstName, familyName}` name object. -/
structure PersonName where
  firstName : String
  familyName : String
deriving DecidableEq, Repr

/-- The `physicalAddress` object of RequestedInfo. The handler only guards
on `postalCode`, which may be absent on the wire, hence Option. -/
structure PhysicalAddress where
  address1 : String
  address2 : Option String
  city : String
  state : String
  postalCode : Option String
  countryCode : String
  name : Option PersonName
deriving DecidableEq, Repr

/-- The RequestedInfo bag of optionally-present personal-data fields. -/
structure RequestedInfo where
  email : Option String
  phoneNumber : Option PhoneNumber
  physicalAddress : Option PhysicalAddress
  isPrimary : Option Bool
  name : Option PersonName
  onchainAddress : Option String
deriving Repr

/-- The `capabilities.dataCallback` object: an optionally-present
requestedInfo plus any further keys (echoed verbatim). -/
structure DataCallbackCapability where
  requestedInfo : Option RequestedInfo
  extra : List (String × Json)
deriving Repr

/-- The `capabilities` object: dataCallback plus any further capability
keys (echoed verbatim). -/
structure Capabilities where
  dataCallback : DataCallbackCapability
  extra : List (String × Json)
deriving Repr

/-- A well-formed CallbackRequest: `calls`, `chainId`, `version` and
`capabilities.dataCallback` are all present. -/
structure CallbackRequest where
  calls : List Call
  chainId : String
  version : String
  capabilities : Capabilities
deriving Repr

def encodeCall (c : Call) : Json :=
  Json.obj [("to", Json.str c.toAddr), ("data", Json.str c.data)]

/-- An optional string field: omitted from the object when absent. -/
def encodeOptStr (key : String) : Option String → List (String × Json)
  | some s => [(key, Json.str s)]
  | none => []

def encodePersonName (n : PersonName) : Json :=
  Json.obj [("firstName", Json.str n.firstName), ("familyName", Json.str n.familyName)]

def encodePhoneNumber (p : PhoneNumber) : Json :=
  Json.obj [("number", Json.str p.number), ("country", Json.str p.country),
            ("isPrimary", Json.bool p.isPrimary)]

def encodePhysicalAddress (a : PhysicalAddress) : Json :=
  Json.obj ([("address1", Json.str a.address1)] ++
            encodeOptStr "address2" a.address2 ++
            [("city", Json.str a.city), ("state", Json.str a.state)] ++
            encodeOptStr "postalCode" a.postalCode ++
            [("countryCode", Json.str a.countryCode)] ++
            (match a.name with
             | some n => [("name", encodePersonName n)]
             | none => []))

def encodeRequestedInfo (ri : RequestedInfo) : Json :=
  Json.obj (encodeOptStr "email" ri.email ++
            (match ri.phoneNumber with
             | some p => [("phoneNumber", encodePhoneNumber p)]
             | none => []) ++
            (match ri.physicalAddress with
             | some a => [("physicalAddress", encodePhysicalAddress a)]
             | none => []) ++
            (match ri.isPrimary with
             | some b => [("isPrimary", Json.bool b)]
             | none => []) ++
            (match ri.name with
             | some n => [("name", encodePersonName n)]
             | none => []) ++
            encodeOptStr "onchainAddress" ri.onchainAddress)

def encodeDataCallback (dc : DataCallbackCapability) : Json :=
  Json.obj ((match dc.requestedInfo with
             | some ri => [("requestedInfo", encodeRequestedInfo ri)]
             | none => []) ++ dc.extra)

def encodeCapabilities (c : Capabilities) : Json :=
  Json.obj (("dataCallback", encodeDataCallback c.dataCallback) :: c.extra)

def encodeRequest (r : CallbackRequest) : Json :=
  Json.obj [("calls", Json.arr (r.calls.map encodeCall)),
            ("chainId", Json.str r.chainId),
            ("version", Json.str r.version),
            ("capabilities", encodeCapabilities r.capabilities)]

/-- The extra capability keys do not collide with the keys the handler
reads. Any JSON object produced by serialising a TypeScript value has
unique keys, so this holds for every request the wallet provider sends. -/
def extrasOk (r : CallbackRequest) : Prop :=
  "dataCallback" ∉ r.capabilities.extra.map Prod.fst ∧
  "requestedInfo" ∉ r.capabilities.dataCallback.extra.map Prod.fst

instance (r : CallbackRequest) : Decidable (extrasOk r) := by
  unfold extrasOk; infer_instance

/-- The success echo of a structured request, as a JSON body. -/
def echoOf (r : CallbackRequest) : Json :=
  Json.obj [("calls", Json.arr (r.calls.map encodeCall)),
            ("chainId", Json.str r.chainId),
            ("version", Json.str r.version),
            ("capabilities", encodeCapabilities r.capabilities)]

/-- The email rule of route.ts lines 70-72, on structured data: violated
when the email is present, truthy (non-empty) and ends with example.com. -/
def emailViolation (ri : RequestedInfo) : Bool :=
  match ri.email with
  | some e => (e != "") && jsEndsWith e "@example.com"
  | none => false

/-- The postal-code rule of route.ts lines 75-81, on structured data:
violated when the postal code is present, truthy (non-empty) and shorter
than 5 characters. -/
def postalCodeViolation (ri : RequestedInfo) : Bool :=
  match ri.physicalAddress with
  | some addr =>
    match addr.postalCode with
    | some p => (p != "") && decide (p.length < 5)
    | none => false
  | none => false

/-- The error map the handler accumulates for a structured RequestedInfo:
the email entry first, then the physicalAddress entry, each present
exactly when its rule is violated. -/
def requestErrors (ri : RequestedInfo) : List (String × Json) :=
  (if emailViolation ri then [emailErrorEntry] else []) ++
  (if postalCodeViolation ri then [postalCodeErrorEntry] else [])

/-! ## Evaluation of the handler on encoded structured requests -/

theorem lookupField_eq_none : ∀ (l : List (String × Json)) (key : String),
    key ∉ l.map Prod.fst → lookupField l key = none
  | [], _, _ => rfl
  | (k, v) :: rest, key, h => by
    have h1 : ¬ k = key := fun hk => h (by simp [hk])
    have h2 : key ∉ rest.map Prod.fst := fun hm => h (by simp [hm])
    simp [lookupField, lookupField_eq_none rest key h2, h1]

theorem lookupField_cons_of_none {rest : List (String × Json)} {key : String}
    (v : Json) (h : lookupField rest key = none) :
    lookupField ((key, v) :: rest) key = some v := by
  simp [lookupField, h]

theorem getProp_encodeRequest_calls (r : CallbackRequest) :
    getProp (encodeRequest r) "calls" = some (Json.arr (r.calls.map encodeCall)) := rfl

theorem getProp_encodeRequest_chainId (r : CallbackRequest) :
    getProp (encodeRequest r) "chainId" = some (Json.str r.chainId) := rfl

theorem getProp_encodeRequest_version (r : CallbackRequest) :
    getProp (encodeRequest r) "version" = some (Json.str r.version) := rfl

theorem getProp_encodeRequest_capabilities (r : CallbackRequest) :
    getProp (encodeRequest r) "capabilities" = some (encodeCapabilities r.capabilities) := rfl

theorem getProp_encodeCapabilities_dataCallback (c : Capabilities)
    (h : "dataCallback" ∉ c.extra.map Prod.fst) :
    getProp (encodeCapabilities c) "dataCallback" = some (encodeDataCallback c.dataCallback) := by
  unfold encodeCapabilities getProp
  exact lookupField_cons_of_none _ (lookupField_eq_none _ _ h)

theorem getProp_encodeDataCallback_requestedInfo (dc : DataCallbackCapability)
    (h : "requestedInfo" ∉ dc.extra.map Prod.fst) :
    getProp (encodeDataCallback dc) "requestedInfo" = dc.requestedInfo.map encodeRequestedInfo := by
  cases hri : dc.requestedInfo with
  | none => simp [encodeDataCallback, hri, getProp, lookupField_eq_none _ _ h]
  | some ri =>
    simp [encodeDataCallback, hri, getProp, lookupField_cons_of_none _ (lookupField_eq_none _ _ h)]

theorem getProp_encodeRI_email (ri : RequestedInfo) :
    getProp (encodeRequestedInfo ri) "email" = ri.email.map Json.str := by
  obtain ⟨email, pn, pa, ip, nm, oa⟩ := ri
  cases email <;> cases pn <;> cases pa <;> cases ip <;> cases nm <;> cases oa <;> rfl

theorem getProp_encodeRI_physicalAddress (ri : RequestedInfo) :
    getProp (encodeRequestedInfo ri) "physicalAddress" =
      ri.physicalAddress.map encodePhysicalAddress := by
  obtain ⟨email, pn, pa, ip, nm, oa⟩ := ri
  cases email <;> cases pn <;> cases pa <;> cases ip <;> cases nm <;> cases oa <;> rfl

theorem getProp_encodePA_postalCode (a : PhysicalAddress) :
    getProp (encodePhysicalAddress a) "postalCode" = a.postalCode.map Json.str := by
  obtain ⟨a1, a2, city, st, pc, cc, nm⟩ := a
  cases a2 <;> cases pc <;> cases nm <;> rfl

theorem truthy_encodeRI (ri : RequestedInfo) : truthy (encodeRequestedInfo ri) = true := rfl

theorem truthy_encodePA (a : PhysicalAddress) : truthy (encodePhysicalAddress a) = true := rfl

theorem truthy_str (s : String) : truthy (Json.str s) = (s != "") := rfl

theorem truthy_arr (elems : List Json) : truthy (Json.arr elems) = true := rfl

theorem truthyOpt_some (j : Json) : truthyOpt (some j) = truthy j := rfl

theorem truthyOpt_none : truthyOpt none = false := rfl

theorem truthy_encodeDataCallback (dc : DataCallbackCapability) :
    truthy (encodeDataCallback dc) = true := rfl

theorem isNull_encodeRequest (r : CallbackRequest) : isNull (encodeRequest r) = false := rfl

theorem optChain_encodeCapabilities (c : Capabilities) (key : String) :
    optChain (some (encodeCapabilities c)) key = getProp (encodeCapabilities c) key := rfl

theorem optChain_encodeDataCallback (dc : DataCallbackCapability) (key : String) :
    optChain (some (encodeDataCallback dc)) key = getProp (encodeDataCallback dc) key := rfl

theorem echoBody_encodeRequest (r : CallbackRequest) :
    echoBody (encodeRequest r) = echoOf r := rfl

theorem emailCheck_encodeRI (ri : RequestedInfo) :
    emailCheck (encodeRequestedInfo ri) =
      Except.ok (if emailViolation ri then [emailErrorEntry] else []) := by
  unfold emailCheck
  rw [getProp_encodeRI_email]
  cases he : ri.email with
  | none => simp [emailViolation, he]
  | some e =>
    by_cases h0 : e = ""
    · subst h0; simp [truthy, emailViolation, he]
    · simp [truthy, emailViolation, he, h0]

theorem physicalAddressCheck_encodeRI (ri : RequestedInfo) :
    physicalAddressCheck (encodeRequestedInfo ri) =
      (if postalCodeViolation ri then [postalCodeErrorEntry] else []) := by
  unfold physicalAddressCheck
  rw [getProp_encodeRI_physicalAddress]
  cases hpa : ri.physicalAddress with
  | none => simp [postalCodeViolation, hpa]
  | some a =>
    simp only [Option.map_some', truthy_encodePA, if_true, getProp_encodePA_postalCode]
    cases hpc : a.postalCode with
    | none => simp [postalCodeViolation, hpa, hpc]
    | some p =>
      by_cases h0 : p = ""
      · subst h0; simp [postalCodeViolation, hpa, hpc, truthy_str]
      · by_cases h5 : p.length < 5 <;>
          simp [postalCodeViolation, hpa, hpc, truthy_str, jsLength, h0, h5]

/-- Full evaluation of the POST handler on an encoded well-formed request
whose chainId and version are truthy: either there is no requestedInfo and
the handler echoes, or the accumulated rule violations decide between the
echo and the error body. -/
theorem POST_encode (r : CallbackRequest) (hx : extrasOk r)
    (hc : r.chainId ≠ "") (hv : r.version ≠ "") :
    POST (some (encodeRequest r)) =
      match r.capabilities.dataCallback.requestedInfo with
      | none => echoOf r
      | some ri =>
        match requestErrors ri with
        | [] => echoOf r
        | _ => Json.obj [("errors", Json.obj (requestErrors ri))] := by
  have hc' : (r.chainId != "") = true := by simp [hc]
  have hv' : (r.version != "") = true := by simp [hv]
  have hpost : postTry (encodeRequest r) =
      Except.ok (match r.capabilities.dataCallback.requestedInfo with
        | none => echoOf r
        | some ri =>
          match requestErrors ri with
          | [] => echoOf r
          | _ => Json.obj [("errors", Json.obj (requestErrors ri))]) := by
    simp only [postTry, isNull_encodeRequest, Bool.false_eq_true, if_false,
      getProp_encodeRequest_calls, getProp_encodeRequest_chainId, getProp_encodeRequest_version,
      getProp_encodeRequest_capabilities, truthyOpt_some, truthy_str, truthy_arr, hc', hv',
      Bool.and_self, Bool.and_true, Bool.true_and, Bool.not_true,
      optChain_encodeCapabilities, getProp_encodeCapabilities_dataCallback _ hx.1,
      truthy_encodeDataCallback, optChain_encodeDataCallback,
      getProp_encodeDataCallback_requestedInfo _ hx.2]
    cases hri : r.capabilities.dataCallback.requestedInfo with
    | none => simp [truthyOpt_none, echoBody_encodeRequest]
    | some ri =>
      simp only [Option.map_some', truthyOpt_some, truthy_encodeRI, Bool.not_true,
        Bool.false_eq_true, if_false, Option.getD_some, emailCheck_encodeRI,
        physicalAddressCheck_encodeRI]
      have hfold : (if emailViolation ri then [emailErrorEntry] else []) ++
          (if postalCodeViolation ri then [postalCodeErrorEntry] else []) =
          requestErrors ri := rfl
      rw [hfold]
      cases hre : requestErrors ri with
      | nil => simp [echoBody_encodeRequest]
      | cons x rest => simp
  simp only [POST, handleBody, hpost]

/-! ## Shape analysis of the handler on arbitrary bodies -/

theorem emailCheck_cases (ri : Json) :
    emailCheck ri = Except.error () ∨ emailCheck ri = Except.ok [] ∨
    emailCheck ri = Except.ok [emailErrorEntry] := by
  unfold emailCheck
  cases getProp ri "email" with
  | none => tauto
  | some e =>
    cases e with
    | null => simp [truthy]
    | bool b => cases b <;> simp [truthy]
    | num n => by_cases h : n = 0 <;> simp [truthy, h]
    | str s =>
      by_cases h0 : s = ""
      · simp [truthy, h0]
      · by_cases hend : jsEndsWith s "@example.com" <;> simp [truthy, h0, hend]
    | arr elems => simp [truthy]
    | obj fields => simp [truthy]

theorem physicalAddressCheck_cases (ri : Json) :
    physicalAddressCheck ri = [] ∨ physicalAddressCheck ri = [postalCodeErrorEntry] := by
  unfold physicalAddressCheck
  cases getProp ri "physicalAddress" with
  | none => tauto
  | some addr =>
    by_cases ht : truthy addr
    · simp only [ht, if_true]
      cases getProp addr "postalCode" with
      | none => tauto
      | some pc =>
        by_cases htp : truthy pc
        · simp only [htp, if_true]
          cases jsLength pc with
          | none => tauto
          | some len => by_cases h5 : len < 5 <;> simp [h5]
        · simp [htp]
    · simp [ht]

/-- Exhaustive case analysis of the try block on an arbitrary parsed body:
it throws, rejects with one of the two server errors, echoes, or answers
with the error map accumulated from the two validation rules. -/
theorem postTry_cases (rd : Json) :
    postTry rd = Except.error () ∨
    postTry rd = Except.ok missingFieldsBody ∨
    postTry rd = Except.ok missingCapabilityBody ∨
    postTry rd = Except.ok (echoBody rd) ∨
    (∃ e1 e2, (e1 = [] ∨ e1 = [emailErrorEntry]) ∧
      (e2 = [] ∨ e2 = [postalCodeErrorEntry]) ∧ e1 ++ e2 ≠ [] ∧
      postTry rd = Except.ok (Json.obj [("errors", Json.obj (e1 ++ e2))])) := by
  unfold postTry
  cases hn : isNull rd with
  | true => simp
  | false =>
    simp only [Bool.false_eq_true, if_false]
    cases h3 : truthyOpt (getProp rd "calls") && truthyOpt (getProp rd "chainId") &&
        truthyOpt (getProp rd "version") with
    | false => simp
    | true =>
      simp only [Bool.not_true, Bool.false_eq_true, if_false]
      cases hdc : truthyOpt (optChain (getProp rd "capabilities") "dataCallback") with
      | false => simp
      | true =>
        simp only [Bool.not_true, Bool.false_eq_true, if_false]
        cases hri : truthyOpt (optChain
            (optChain (getProp rd "capabilities") "dataCallback") "requestedInfo") with
        | false => simp
        | true =>
          simp only [Bool.not_true, Bool.false_eq_true, if_false, Bool.not_false, if_true]
          set ri := (optChain (optChain (getProp rd "capabilities") "dataCallback")
            "requestedInfo").getD Json.null with hriDef
          rcases emailCheck_cases ri with he | he | he
          · simp [he]
          · rcases physicalAddressCheck_cases ri with hp | hp
            · simp [he, hp]
            · refine Or.inr (Or.inr (Or.inr (Or.inr ⟨[], [postalCodeErrorEntry], ?_⟩)))
              simp [he, hp]
          · rcases physicalAddressCheck_cases ri with hp | hp
            · refine Or.inr (Or.inr (Or.inr (Or.inr ⟨[emailErrorEntry], [], ?_⟩)))
              simp [he, hp]
            · refine Or.inr (Or.inr (Or.inr (Or.inr
                ⟨[emailErrorEntry], [postalCodeErrorEntry], ?_⟩)))
              simp [he, hp]

example : jsEndsWith "a@example.com" "@example.com" = true := by decide
example : jsEndsWith "" "@example.com" = false := by decide

/-! ## Client-side request builder (src/app/components/DataCallback.tsx)

The submit handler handleSubmitTransaction, modelled as a pure function
from the component state it reads to the action it takes: either it logs
an error message and returns without contacting the wallet, or it sends a
wallet_sendCalls request. The fixed USDC transfer call data is produced by
an external library and is not interpreted here; the model keeps the
pieces the component computes itself. -/

namespace Client

/-- The dataRequests (and dataOptional) component state, with the fields
in the insertion order of the state object, which Object.entries follows. -/
structure DataRequest where
  email : Bool
  physicalAddress : Bool
  onchainAddress : Bool
  phoneNumber : Bool
  name : Bool
deriving DecidableEq, Repr

abbrev DataOptional := DataRequest

/-- Object.entries over the dataRequests state object. -/
def entriesOfDataRequest (d : DataRequest) : List (String × Bool) :=
  [("email", d.email), ("physicalAddress", d.physicalAddress),
   ("onchainAddress", d.onchainAddress), ("phoneNumber", d.phoneNumber),
   ("name", d.name)]

/-- Lines 231-233: the names of the selected data-request fields. -/
def activeRequests (d : DataRequest) : List String :=
  ((entriesOfDataRequest d).filter (fun e => e.2)).map (fun e => e.1)

/-- The dynamic property read `dataOptional[field]`. -/
def optionalFor (o : DataOptional) (field : String) : Bool :=
  if field = "email" then o.email
  else if field = "physicalAddress" then o.physicalAddress
  else if field = "onchainAddress" then o.onchainAddress
  else if field = "phoneNumber" then o.phoneNumber
  else if field = "name" then o.name
  else false

/-- One entry of the dataCallback capability requests array. -/
structure DataCallbackRequestEntry where
  type : String
  optional : Bool
deriving DecidableEq, Repr

def CHAIN_TO_USDC_ADDRESS : List (Nat × String) :=
  [(8453, "0x833589fCD6eDb6E08f4c7C32D4f71b54bdA02913"),
   (84532, "0x036CbD53842c5426634e7929541eC2318f3dCF7e")]

def CHAIN_NAMES : List (Nat × String) :=
  [(8453, "Base"), (84532, "Base Sepolia")]

/-- Line 100: `displayChainId ? displayChainId in CHAIN_TO_USDC_ADDRESS : false`
(`none` models undefined, and the chain id 0 is falsy). -/
def currentChainSupported (c : Option Nat) : Bool :=
  match c with
  | none => false
  | some i => if i = 0 then false else (CHAIN_TO_USDC_ADDRESS.lookup i).isSome

/-- Line 101: the display name of the current chain. An unknown truthy
chain id indexes the table outside its keys, which evaluates to undefined
and later interpolates as the text undefined. -/
def currentChainName (c : Option Nat) : String :=
  match c with
  | none => "Unknown"
  | some i => if i = 0 then "Unknown" else (CHAIN_NAMES.lookup i).getD "undefined"

/-- Truthiness of the displayChainId value. -/
def truthyChainId : Option Nat → Bool
  | none => false
  | some i => i != 0

/-- viem numberToHex: 0x followed by lowercase hexadecimal digits. -/
def numberToHex (n : Nat) : String :=
  "0x" ++ String.mk (Nat.toDigits 16 n)

/-- The wallet_sendCalls request the component builds (lines 274-307):
the pieces computed by the component itself. The call data of the single
USDC transfer call is a fixed blob produced by an external ABI encoder and
is not modelled. -/
structure SendCallsRequest where
  version : String
  chainIdHex : String
  usdcAddress : Option String
  requests : List DataCallbackRequestEntry
  callbackURL : Option String
deriving DecidableEq, Repr

/-- The observable action of one submit: log an error locally and stop, or
send a wallet_sendCalls request to the wallet provider. -/
inductive SubmitAction where
  | rejected (message : String)
  | sent (params : SendCallsRequest)
deriving DecidableEq, Repr

/-- The component state read by handleSubmitTransaction. callbackBaseURL
is the resolved NEXT_PUBLIC_CALLBACK_BASE_URL-or-origin string. -/
structure SubmitState where
  displayIsConnected : Bool
  walletClientPresent : Bool
  displayChainId : Option Nat
  dataRequests : DataRequest
  dataOptional : DataOptional
  callbackEnabled : Bool
  callbackBaseURL : String
deriving DecidableEq, Repr

/-- Embedding of handleSubmitTransaction (DataCallback.tsx lines 214-318):
the guard chain followed by the request construction. -/
def handleSubmitTransaction (s : SubmitState) : SubmitAction :=
  if !s.displayIsConnected || !s.walletClientPresent then
    SubmitAction.rejected "Please connect your wallet first"
  else if !currentChainSupported s.displayChainId || !truthyChainId s.displayChainId then
    SubmitAction.rejected ("Data callback not supported on " ++
      currentChainName s.displayChainId ++ ". Please switch to Base or Base Sepolia.")
  else
    let activeReqs := activeRequests s.dataRequests
    if activeReqs.length = 0 then
      SubmitAction.rejected "Please select at least one data request"
    else
      let cid := s.displayChainId.getD 0
      SubmitAction.sent
        { version := "1.0"
          chainIdHex := numberToHex cid
          usdcAddress := CHAIN_TO_USDC_ADDRESS.lookup cid
          requests := activeReqs.map (fun field =>
            { type := field, optional := optionalFor s.dataOptional field })
          callbackURL :=
            if s.callbackEnabled then some (s.callbackBaseURL ++ "/api/data-callback")
            else none }

end Client

/-! ## Claim theorems -/

/-- A valid calls array used by the concrete requests below. -/
def sampleCalls : List Call :=
  [{ toAddr := "0x036CbD53842c5426634e7929541eC2318f3dCF7e", data := "0xa9059cbb" }]

/-- A well-formed request whose chainId is present but the empty string. -/
def presentButEmptyChainIdRequest : CallbackRequest :=
  { calls := sampleCalls
    chainId := ""
    version := "1.0"
    capabilities := { dataCallback := { requestedInfo := none, extra := [] }, extra := [] } }

/-- C1 counterexample: a well-formed CallbackRequest with calls, chainId,
version and capabilities.dataCallback all present and no validation rule
violated (requestedInfo is absent), whose chainId is the empty string. The
handler treats the falsy chainId as missing and answers with an
errors.server body instead of the claimed exact echo: the response carries
an errors key, which the echo never does, so the response is not the echo. -/
theorem c1_counterexample_empty_chainId :
    POST (some (encodeRequest presentButEmptyChainIdRequest)) = missingFieldsBody ∧
    getProp (POST (some (encodeRequest presentButEmptyChainIdRequest))) "errors" =
      some (Json.obj [("server", Json.str "Missing required fields")]) ∧
    getProp (echoOf presentButEmptyChainIdRequest) "errors" = none ∧
    POST (some (encodeRequest presentButEmptyChainIdRequest)) ≠
      echoOf presentButEmptyChainIdRequest := by
  refine ⟨rfl, rfl, rfl, fun h => ?_⟩
  have h2 : getProp (POST (some (encodeRequest presentButEmptyChainIdRequest))) "errors" =
      getProp (echoOf presentButEmptyChainIdRequest) "errors" := by rw [h]
  rw [show getProp (POST (some (encodeRequest presentButEmptyChainIdRequest))) "errors" =
      some (Json.obj [("server", Json.str "Missing required fields")]) from rfl] at h2
  rw [show getProp (echoOf presentButEmptyChainIdRequest) "errors" = none from rfl] at h2
  exact Option.noConfusion h2

/-- C1 (amended): for every well-formed CallbackRequest whose calls,
chainId, version and capabilities.dataCallback are all present and truthy
(chainId and version non-empty) and that violates no validation rule —
including the case where requestedInfo is absent entirely — the response
is the exact echo: its calls, chainId, version and capabilities equal the
corresponding input fields, the capabilities object is passed through
verbatim with its dataCallback key present, and no errors key appears. -/
theorem c1_valid_request_echoed (r : CallbackRequest) (hx : extrasOk r)
    (hc : r.chainId ≠ "") (hv : r.version ≠ "")
    (hok : ∀ ri, r.capabilities.dataCallback.requestedInfo = some ri → requestErrors ri = []) :
    POST (some (encodeRequest r)) = echoOf r ∧
    getProp (echoOf r) "calls" = some (Json.arr (r.calls.map encodeCall)) ∧
    getProp (echoOf r) "chainId" = some (Json.str r.chainId) ∧
    getProp (echoOf r) "version" = some (Json.str r.version) ∧
    getProp (echoOf r) "capabilities" = some (encodeCapabilities r.capabilities) ∧
    getProp (encodeCapabilities r.capabilities) "dataCallback" =
      some (encodeDataCallback r.capabilities.dataCallback) ∧
    getProp (echoOf r) "errors" = none := by
  refine ⟨?_, rfl, rfl, rfl, rfl, getProp_encodeCapabilities_dataCallback _ hx.1, rfl⟩
  rw [POST_encode r hx hc hv]
  cases hri2 : r.capabilities.dataCallback.requestedInfo with
  | none => rfl
  | some ri2 =>
    show (match requestErrors ri2 with
      | [] => echoOf r
      | _ => Json.obj [("errors", Json.obj (requestErrors ri2))]) = echoOf r
    rw [hok ri2 hri2]

/-- The requestedInfo of the C1 witness request: an email that does not
end with example.com and nothing else. -/
def benignRequestedInfo : RequestedInfo :=
  { email := some "user@gmail.com", phoneNumber := none, physicalAddress := none,
    isPrimary := none, name := none, onchainAddress := none }

/-- A fully valid request on Base Sepolia. -/
def benignRequest : CallbackRequest :=
  { calls := sampleCalls
    chainId := "0x14a34"
    version := "1.0"
    capabilities := { dataCallback := { requestedInfo := some benignRequestedInfo, extra := [] }
                      extra := [] } }

theorem c1_valid_request_echoed_witness :
    POST (some (encodeRequest benignRequest)) = echoOf benignRequest :=
  (c1_valid_request_echoed benignRequest (by decide) (by decide) (by decide)
    (fun ri h => by
      have h2 : some benignRequestedInfo = some ri := h
      injection h2 with h3
      rw [← h3]
      rfl)).1

/-- The requestedInfo with an empty postal code. -/
def emptyPostalRequestedInfo : RequestedInfo :=
  { email := none, phoneNumber := none,
    physicalAddress := some
      { address1 := "1 Main St", address2 := none, city := "Springfield", state := "IL",
        postalCode := some "", countryCode := "US", name := none },
    isPrimary := none, name := none, onchainAddress := none }

/-- A well-formed request whose postal code is present and empty. -/
def emptyPostalRequest : CallbackRequest :=
  { calls := sampleCalls
    chainId := "0x14a34"
    version := "1.0"
    capabilities := { dataCallback := { requestedInfo := some emptyPostalRequestedInfo
                                        extra := [] }
                      extra := [] } }

/-- C2 counterexample: the empty postal code is present and shorter than 5
characters, yet the guard `addr.postalCode && ...` skips the falsy empty
string, so the handler answers with the success echo and no errors key at
all — in particular no errors.physicalAddress.postalCode entry. -/
theorem c2_counterexample_empty_postal :
    POST (some (encodeRequest emptyPostalRequest)) = echoOf emptyPostalRequest ∧
    getProp (POST (some (encodeRequest emptyPostalRequest))) "errors" = none :=
  ⟨rfl, rfl⟩

/-- C2 (amended): for every well-formed request (truthy calls, chainId,
version, dataCallback) whose requestedInfo.physicalAddress.postalCode is
present, non-empty and shorter than 5 characters, the response is an
errors body whose physicalAddress entry is postalCode = Invalid postal
code. -/
theorem c2_short_postal_rejected (r : CallbackRequest) (ri : RequestedInfo)
    (pa : PhysicalAddress) (p : String) (hx : extrasOk r)
    (hc : r.chainId ≠ "") (hv : r.version ≠ "")
    (hri : r.capabilities.dataCallback.requestedInfo = some ri)
    (hpa : ri.physicalAddress = some pa) (hp : pa.postalCode = some p)
    (hne : p ≠ "") (hlen : p.length < 5) :
    ∃ errs, POST (some (encodeRequest r)) = Json.obj [("errors", Json.obj errs)] ∧
      lookupField errs "physicalAddress" =
        some (Json.obj [("postalCode", Json.str "Invalid postal code")]) := by
  have hviol : postalCodeViolation ri = true := by
    simp [postalCodeViolation, hpa, hp, hne, hlen]
  have hval : POST (some (encodeRequest r)) =
      Json.obj [("errors", Json.obj (requestErrors ri))] := by
    rw [POST_encode r hx hc hv]
    simp only [hri]
    rcases hre : requestErrors ri with _ | ⟨x, rest⟩
    · exfalso
      simp [requestErrors, hviol] at hre
    · rfl
  refine ⟨requestErrors ri, hval, ?_⟩
  by_cases hev : emailViolation ri = true
  · rw [show requestErrors ri = [emailErrorEntry, postalCodeErrorEntry] by
      simp [requestErrors, hviol, hev]]
    rfl
  · rw [show requestErrors ri = [postalCodeErrorEntry] by
      simp [requestErrors, hviol, hev]]
    rfl

/-- The requestedInfo with the short non-empty postal code 12. -/
def shortPostalRequestedInfo : RequestedInfo :=
  { email := none, phoneNumber := none,
    physicalAddress := some
      { address1 := "1 Main St", address2 := none, city := "Springfield", state := "IL",
        postalCode := some "12", countryCode := "US", name := none },
    isPrimary := none, name := none, onchainAddress := none }

/-- A well-formed request with postal code 12. -/
def shortPostalRequest : CallbackRequest :=
  { calls := sampleCalls
    chainId := "0x14a34"
    version := "1.0"
    capabilities := { dataCallback := { requestedInfo := some shortPostalRequestedInfo
                                        extra := [] }
                      extra := [] } }

theorem c2_short_postal_rejected_witness :
    ∃ errs, POST (some (encodeRequest shortPostalRequest)) =
        Json.obj [("errors", Json.obj errs)] ∧
      lookupField errs "physicalAddress" =
        some (Json.obj [("postalCode", Json.str "Invalid postal code")]) :=
  c2_short_postal_rejected shortPostalRequest shortPostalRequestedInfo
    { address1 := "1 Main St", address2 := none, city := "Springfield", state := "IL",
      postalCode := some "12", countryCode := "US", name := none } "12"
    (by decide) (by decide) (by decide) rfl rfl rfl (by decide) (by decide)

/-- C3: for every well-formed request (truthy required fields) whose
requestedInfo.email is present and ends with example.com, the response is
an errors body containing email = Example.com emails are not allowed, and
the response has no top-level calls key. -/
theorem c3_example_email_rejected (r : CallbackRequest) (ri : RequestedInfo) (e : String)
    (hx : extrasOk r) (hc : r.chainId ≠ "") (hv : r.version ≠ "")
    (hri : r.capabilities.dataCallback.requestedInfo = some ri)
    (he : ri.email = some e) (hend : jsEndsWith e "@example.com" = true) :
    ∃ errs, POST (some (encodeRequest r)) = Json.obj [("errors", Json.obj errs)] ∧
      lookupField errs "email" = some (Json.str "Example.com emails are not allowed") ∧
      getProp (POST (some (encodeRequest r))) "calls" = none := by
  have hne : e ≠ "" := by
    intro h0
    subst h0
    exact absurd hend (by decide)
  have hviol : emailViolation ri = true := by
    simp [emailViolation, he, hne, hend]
  have hval : POST (some (encodeRequest r)) =
      Json.obj [("errors", Json.obj (requestErrors ri))] := by
    rw [POST_encode r hx hc hv]
    simp only [hri]
    rcases hre : requestErrors ri with _ | ⟨x, rest⟩
    · exfalso
      simp [requestErrors, hviol] at hre
    · rfl
  refine ⟨requestErrors ri, hval, ?_, ?_⟩
  · by_cases hpv : postalCodeViolation ri = true
    · rw [show requestErrors ri = [emailErrorEntry, postalCodeErrorEntry] by
        simp [requestErrors, hviol, hpv]]
      rfl
    · rw [show requestErrors ri = [emailErrorEntry] by
        simp [requestErrors, hviol, hpv]]
      rfl
  · rw [hval]
    rfl

/-- The requestedInfo with an example.com email. -/
def exampleEmailRequestedInfo : RequestedInfo :=
  { email := some "bob@example.com", phoneNumber := none, physicalAddress := none,
    isPrimary := none, name := none, onchainAddress := none }

/-- A well-formed request whose email is bob at example.com. -/
def exampleEmailRequest : CallbackRequest :=
  { calls := sampleCalls
    chainId := "0x14a34"
    version := "1.0"
    capabilities := { dataCallback := { requestedInfo := some exampleEmailRequestedInfo
                                        extra := [] }
                      extra := [] } }

theorem c3_example_email_rejected_witness :
    ∃ errs, POST (some (encodeRequest exampleEmailRequest)) =
        Json.obj [("errors", Json.obj errs)] ∧
      lookupField errs "email" = some (Json.str "Example.com emails are not allowed") ∧
      getProp (POST (some (encodeRequest exampleEmailRequest))) "calls" = none :=
  c3_example_email_rejected exampleEmailRequest exampleEmailRequestedInfo "bob@example.com"
    (by decide) (by decide) (by decide) rfl rfl (by decide)

/-- C5: no short-circuiting between the validation rules: on every request
that reaches validation, the error map is exactly the concatenation of the
entry of each violated rule (email first, then physicalAddress), so
simultaneous violations are all reported together in one response. -/
theorem c5_all_violations_reported (r : CallbackRequest) (ri : RequestedInfo)
    (hx : extrasOk r) (hc : r.chainId ≠ "") (hv : r.version ≠ "")
    (hri : r.capabilities.dataCallback.requestedInfo = some ri)
    (hne : requestErrors ri ≠ []) :
    POST (some (encodeRequest r)) = Json.obj [("errors", Json.obj
      ((if emailViolation ri then [emailErrorEntry] else []) ++
       (if postalCodeViolation ri then [postalCodeErrorEntry] else [])))] := by
  have hval : POST (some (encodeRequest r)) =
      Json.obj [("errors", Json.obj (requestErrors ri))] := by
    rw [POST_encode r hx hc hv]
    simp only [hri]
  exact hval

/-- The requestedInfo of the concrete C5 scenario: email a@example.com and
postal code 12. -/
def doubleViolationRequestedInfo : RequestedInfo :=
  { email := some "a@example.com", phoneNumber := none,
    physicalAddress := some
      { address1 := "1 Main St", address2 := none, city := "Springfield", state := "IL",
        postalCode := some "12", countryCode := "US", name := none },
    isPrimary := none, name := none, onchainAddress := none }

/-- The concrete C5 scenario request with valid calls, chainId, version. -/
def doubleViolationRequest : CallbackRequest :=
  { calls := sampleCalls
    chainId := "0x14a34"
    version := "1.0"
    capabilities := { dataCallback := { requestedInfo := some doubleViolationRequestedInfo
                                        extra := [] }
                      extra := [] } }

theorem c5_all_violations_reported_witness :
    POST (some (encodeRequest doubleViolationRequest)) =
      Json.obj [("errors", Json.obj
        [("email", Json.str "Example.com emails are not allowed"),
         ("physicalAddress", Json.obj [("postalCode", Json.str "Invalid postal code")])])] := by
  have h := c5_all_violations_reported doubleViolationRequest doubleViolationRequestedInfo
    (by decide) (by decide) (by decide) rfl
    (by
      rw [show requestErrors doubleViolationRequestedInfo =
        [emailErrorEntry, postalCodeErrorEntry] from rfl]
      exact List.cons_ne_nil _ _)
  exact h

end SmartWalletPlayground

namespace SmartWalletPlayground

/-- C4: every response body is exactly one of two shapes, never both: an
ErrorResponse, an object whose only top-level key is a non-empty errors
map (no calls, chainId, version or capabilities keys), or a
SuccessResponse, the full echo with keys calls, chainId, version,
capabilities and no errors key. -/
theorem c4_response_dichotomy (b : Option Json) :
    (∃ errs, errs ≠ [] ∧ POST b = Json.obj [("errors", Json.obj errs)] ∧
      getProp (POST b) "calls" = none ∧ getProp (POST b) "chainId" = none ∧
      getProp (POST b) "version" = none ∧ getProp (POST b) "capabilities" = none ∧
      getProp (POST b) "errors" = some (Json.obj errs)) ∨
    (∃ rd, b = some rd ∧ POST b = echoBody rd ∧ getProp (POST b) "errors" = none) := by
  cases b with
  | none =>
    left
    exact ⟨[("server", Json.str "Server error validating data")],
      by simp, rfl, rfl, rfl, rfl, rfl, rfl⟩
  | some rd =>
    rcases postTry_cases rd with h | h | h | h | ⟨e1, e2, he1, he2, hne, h⟩
    · left
      have hp : POST (some rd) = serverErrorBody := by simp [POST, handleBody, h]
      refine ⟨[("server", Json.str "Server error validating data")], by simp,
        ?_, ?_, ?_, ?_, ?_, ?_⟩ <;> rw [hp] <;> rfl
    · left
      have hp : POST (some rd) = missingFieldsBody := by simp [POST, handleBody, h]
      refine ⟨[("server", Json.str "Missing required fields")], by simp,
        ?_, ?_, ?_, ?_, ?_, ?_⟩ <;> rw [hp] <;> rfl
    · left
      have hp : POST (some rd) = missingCapabilityBody := by simp [POST, handleBody, h]
      refine ⟨[("server", Json.str "Missing dataCallback capability")], by simp,
        ?_, ?_, ?_, ?_, ?_, ?_⟩ <;> rw [hp] <;> rfl
    · right
      have hp : POST (some rd) = echoBody rd := by simp [POST, handleBody, h]
      exact ⟨rd, rfl, hp, by rw [hp]; rfl⟩
    · left
      have hp : POST (some rd) = Json.obj [("errors", Json.obj (e1 ++ e2))] := by
        simp [POST, handleBody, h]
      refine ⟨e1 ++ e2, hne, ?_, ?_, ?_, ?_, ?_, ?_⟩ <;> rw [hp] <;> rfl

/-- The key is absent from the body; a non-object body has no such own
property at all. -/
def keyAbsent (j : Json) (key : String) : Prop :=
  match j with
  | Json.obj fields => lookupField fields key = none
  | _ => True

/-- capabilities.dataCallback is absent from the body: capabilities is
missing or not an object, or its object lacks the dataCallback key. -/
def dataCallbackAbsent (j : Json) : Prop :=
  match j with
  | Json.obj fields =>
    match lookupField fields "capabilities" with
    | some (Json.obj capFields) => lookupField capFields "dataCallback" = none
    | some _ => True
    | none => True
  | _ => True

/-- C6: for every request body in which calls, chainId or version is
missing, or capabilities.dataCallback is missing, the handler returns a
structured errors.server response; no exception escapes to the client. -/
theorem c6_missing_required_server_error (rd : Json)
    (h : keyAbsent rd "calls" ∨ keyAbsent rd "chainId" ∨ keyAbsent rd "version" ∨
      dataCallbackAbsent rd) :
    ∃ msg, POST (some rd) = Json.obj [("errors", Json.obj [("server", Json.str msg)])] := by
  cases rd with
  | null => exact ⟨"Server error validating data", rfl⟩
  | bool b => exact ⟨"Missing required fields", rfl⟩
  | num n => exact ⟨"Missing required fields", rfl⟩
  | str s => exact ⟨"Missing required fields", rfl⟩
  | arr elems => exact ⟨"Missing required fields", rfl⟩
  | obj fields =>
    by_cases h3 : (truthyOpt (lookupField fields "calls") &&
        truthyOpt (lookupField fields "chainId") &&
        truthyOpt (lookupField fields "version")) = true
    · have hdc : dataCallbackAbsent (Json.obj fields) := by
        rcases h with ha | ha | ha | ha
        · exfalso
          have ha2 : lookupField fields "calls" = none := ha
          rw [ha2] at h3
          simp [truthyOpt] at h3
        · exfalso
          have ha2 : lookupField fields "chainId" = none := ha
          rw [ha2] at h3
          simp [truthyOpt] at h3
        · exfalso
          have ha2 : lookupField fields "version" = none := ha
          rw [ha2] at h3
          simp [truthyOpt] at h3
        · exact ha
      have hdc2 : (match lookupField fields "capabilities" with
          | some (Json.obj capFields) => lookupField capFields "dataCallback" = none
          | some _ => True
          | none => True) := hdc
      have hdcNone : optChain (lookupField fields "capabilities") "dataCallback" = none := by
        cases hcap : lookupField fields "capabilities" with
        | none => rfl
        | some cap =>
          rw [hcap] at hdc2
          cases cap with
          | null => rfl
          | bool b2 => rfl
          | num n2 => rfl
          | str s2 => rfl
          | arr elems2 => rfl
          | obj capFields => exact hdc2
      have h3s : truthyOpt (lookupField fields "calls") = true ∧
          truthyOpt (lookupField fields "chainId") = true ∧
          truthyOpt (lookupField fields "version") = true := by
        simpa [and_assoc] using h3
      refine ⟨"Missing dataCallback capability", ?_⟩
      simp [POST, handleBody, postTry, getProp, isNull, h3s.1, h3s.2.1, h3s.2.2, hdcNone,
        truthyOpt_none, missingCapabilityBody]
    · have h3f : (truthyOpt (lookupField fields "calls") &&
          truthyOpt (lookupField fields "chainId") &&
          truthyOpt (lookupField fields "version")) = false := by
        revert h3
        cases truthyOpt (lookupField fields "calls") &&
          truthyOpt (lookupField fields "chainId") &&
          truthyOpt (lookupField fields "version") <;> simp
      refine ⟨"Missing required fields", ?_⟩
      simp [POST, handleBody, postTry, getProp, isNull, h3f, missingFieldsBody]

theorem c6_missing_required_server_error_witness :
    ∃ msg, POST (some (Json.obj [])) =
      Json.obj [("errors", Json.obj [("server", Json.str msg)])] :=
  c6_missing_required_server_error (Json.obj []) (Or.inl rfl)

/-- C7: whenever parsing or validation raises an exception (a body that is
not valid JSON, a null body, a truthy non-string email), the catch block
converts it into the structured body
errors.server = Server error validating data; no exception propagates
past the handler. -/
theorem c7_exceptions_normalized (b : Option Json)
    (h : handleBody b = Except.error ()) :
    POST b = Json.obj [("errors", Json.obj
      [("server", Json.str "Server error validating data")])] := by
  simp [POST, h, serverErrorBody]

theorem c7_exceptions_normalized_witness :
    POST none = Json.obj [("errors", Json.obj
      [("server", Json.str "Server error validating data")])] :=
  c7_exceptions_normalized none rfl

/-- C8: the handler is a deterministic pure function of the request body —
equal bodies give equal response bodies — and on any fixed valid request
with no validation violations the (repeated) response is the identical
success echo. -/
theorem c8_deterministic_idempotent (b1 b2 : Option Json) (h : b1 = b2) :
    POST b1 = POST b2 ∧
    (∀ r : CallbackRequest, extrasOk r → r.chainId ≠ "" → r.version ≠ "" →
      (∀ ri, r.capabilities.dataCallback.requestedInfo = some ri → requestErrors ri = []) →
      POST (some (encodeRequest r)) = echoOf r) := by
  constructor
  · rw [h]
  · intro r hx hc hv hok
    rw [POST_encode r hx hc hv]
    cases hri2 : r.capabilities.dataCallback.requestedInfo with
    | none => rfl
    | some ri2 =>
      show (match requestErrors ri2 with
        | [] => echoOf r
        | _ => Json.obj [("errors", Json.obj (requestErrors ri2))]) = echoOf r
      rw [hok ri2 hri2]

theorem c8_deterministic_idempotent_witness :
    POST (some (encodeRequest benignRequest)) = POST (some (encodeRequest benignRequest)) ∧
    POST (some (encodeRequest benignRequest)) = echoOf benignRequest := by
  have h := c8_deterministic_idempotent (some (encodeRequest benignRequest))
    (some (encodeRequest benignRequest)) rfl
  refine ⟨h.1, h.2 benignRequest (by decide) (by decide) (by decide) ?_⟩
  intro ri hri
  have h2 : some benignRequestedInfo = some ri := hri
  injection h2 with h3
  rw [← h3]
  rfl

/-- The requestedInfo with the fields the validation never reads cleared:
name, phoneNumber, onchainAddress and isPrimary. -/
def clearUnvalidated (ri : RequestedInfo) : RequestedInfo :=
  { ri with phoneNumber := none, name := none, onchainAddress := none, isPrimary := none }

/-- C10: every errors object the handler returns has keys only among
email, physicalAddress and server; a physicalAddress entry is always
exactly the postalCode message; and the name, phoneNumber, onchainAddress
and isPrimary fields of requestedInfo never influence the error map. -/
theorem c10_error_keys_bounded (b : Option Json) (errs : List (String × Json))
    (h : getProp (POST b) "errors" = some (Json.obj errs)) :
    (∀ kv ∈ errs, kv.1 = "email" ∨ kv.1 = "physicalAddress" ∨ kv.1 = "server") ∧
    (∀ kv ∈ errs, kv.1 = "physicalAddress" →
      kv.2 = Json.obj [("postalCode", Json.str "Invalid postal code")]) ∧
    (∀ ri : RequestedInfo, requestErrors (clearUnvalidated ri) = requestErrors ri) := by
  have hIndep : ∀ ri : RequestedInfo,
      requestErrors (clearUnvalidated ri) = requestErrors ri := by
    intro ri
    cases ri
    rfl
  have hServer : ∀ msg : String, ∀ errs2 : List (String × Json),
      errs2 = [("server", Json.str msg)] →
      (∀ kv ∈ errs2, kv.1 = "email" ∨ kv.1 = "physicalAddress" ∨ kv.1 = "server") ∧
      (∀ kv ∈ errs2, kv.1 = "physicalAddress" →
        kv.2 = Json.obj [("postalCode", Json.str "Invalid postal code")]) := by
    intro msg errs2 he
    subst he
    constructor
    · intro kv hkv
      rcases List.mem_singleton.mp hkv with rfl
      exact Or.inr (Or.inr rfl)
    · intro kv hkv hphys
      rcases List.mem_singleton.mp hkv with rfl
      have hcontra : ("server" : String) = "physicalAddress" := hphys
      exact absurd hcontra (by decide)
  cases b with
  | none =>
    have h2 : Json.obj [("server", Json.str "Server error validating data")] =
        Json.obj errs := by
      rw [show getProp (POST none) "errors" =
        some (Json.obj [("server", Json.str "Server error validating data")]) from rfl] at h
      exact Option.some.inj h
    obtain ⟨hfst, hsnd⟩ := hServer "Server error validating data" errs (Json.obj.inj h2).symm
    exact ⟨hfst, hsnd, hIndep⟩
  | some rd =>
    rcases postTry_cases rd with hh | hh | hh | hh | ⟨e1, e2, he1, he2, hne, hh⟩
    · have hp : POST (some rd) = serverErrorBody := by simp [POST, handleBody, hh]
      rw [hp] at h
      have h2 : Json.obj [("server", Json.str "Server error validating data")] =
          Json.obj errs := by
        rw [show getProp serverErrorBody "errors" =
          some (Json.obj [("server", Json.str "Server error validating data")]) from rfl] at h
        exact Option.some.inj h
      obtain ⟨hfst, hsnd⟩ := hServer "Server error validating data" errs (Json.obj.inj h2).symm
      exact ⟨hfst, hsnd, hIndep⟩
    · have hp : POST (some rd) = missingFieldsBody := by simp [POST, handleBody, hh]
      rw [hp] at h
      have h2 : Json.obj [("server", Json.str "Missing required fields")] =
          Json.obj errs := by
        rw [show getProp missingFieldsBody "errors" =
          some (Json.obj [("server", Json.str "Missing required fields")]) from rfl] at h
        exact Option.some.inj h
      obtain ⟨hfst, hsnd⟩ := hServer "Missing required fields" errs (Json.obj.inj h2).symm
      exact ⟨hfst, hsnd, hIndep⟩
    · have hp : POST (some rd) = missingCapabilityBody := by simp [POST, handleBody, hh]
      rw [hp] at h
      have h2 : Json.obj [("server", Json.str "Missing dataCallback capability")] =
          Json.obj errs := by
        rw [show getProp missingCapabilityBody "errors" =
          some (Json.obj [("server", Json.str "Missing dataCallback capability")]) from rfl] at h
        exact Option.some.inj h
      obtain ⟨hfst, hsnd⟩ := hServer "Missing dataCallback capability" errs
        (Json.obj.inj h2).symm
      exact ⟨hfst, hsnd, hIndep⟩
    · have hp : POST (some rd) = echoBody rd := by simp [POST, handleBody, hh]
      rw [hp] at h
      rw [show getProp (echoBody rd) "errors" = none from rfl] at h
      exact Option.noConfusion h
    · have hp : POST (some rd) = Json.obj [("errors", Json.obj (e1 ++ e2))] := by
        simp [POST, handleBody, hh]
      rw [hp] at h
      rw [show getProp (Json.obj [("errors", Json.obj (e1 ++ e2))]) "errors" =
        some (Json.obj (e1 ++ e2)) from rfl] at h
      obtain rfl : errs = e1 ++ e2 := (Json.obj.inj (Option.some.inj h)).symm
      refine ⟨?_, ?_, hIndep⟩
      · intro kv hkv
        rcases List.mem_append.mp hkv with hk | hk
        · rcases he1 with rfl | rfl
          · exact absurd hk (List.not_mem_nil kv)
          · rcases List.mem_singleton.mp hk with rfl
            exact Or.inl rfl
        · rcases he2 with rfl | rfl
          · exact absurd hk (List.not_mem_nil kv)
          · rcases List.mem_singleton.mp hk with rfl
            exact Or.inr (Or.inl rfl)
      · intro kv hkv hphys
        rcases List.mem_append.mp hkv with hk | hk
        · rcases he1 with rfl | rfl
          · exact absurd hk (List.not_mem_nil kv)
          · rcases List.mem_singleton.mp hk with rfl
            exact absurd hphys (by decide)
        · rcases he2 with rfl | rfl
          · exact absurd hk (List.not_mem_nil kv)
          · rcases List.mem_singleton.mp hk with rfl
            rfl

theorem c10_error_keys_bounded_witness :
    (∀ kv ∈ [("server", Json.str "Server error validating data")],
      Prod.fst kv = "email" ∨ Prod.fst kv = "physicalAddress" ∨ Prod.fst kv = "server") ∧
    (∀ kv ∈ [("server", Json.str "Server error validating data")],
      Prod.fst kv = "physicalAddress" →
      Prod.snd kv = Json.obj [("postalCode", Json.str "Invalid postal code")]) ∧
    (∀ ri : RequestedInfo, requestErrors (clearUnvalidated ri) = requestErrors ri) :=
  c10_error_keys_bounded none [("server", Json.str "Server error validating data")] rfl

/-- C9: with a connected wallet (and wallet client) on a supported chain,
submitting with zero data-request fields selected is rejected locally —
the error message is logged and no wallet_sendCalls request is built or
sent — and submitting with at least one field selected sends the request,
with one requests entry per selected field. -/
theorem c9_submit_gate (s : Client.SubmitState)
    (hconn : s.displayIsConnected = true) (hwc : s.walletClientPresent = true)
    (hchain : Client.currentChainSupported s.displayChainId = true) :
    (Client.activeRequests s.dataRequests = [] →
      Client.handleSubmitTransaction s =
        Client.SubmitAction.rejected "Please select at least one data request") ∧
    (Client.activeRequests s.dataRequests ≠ [] →
      ∃ p, Client.handleSubmitTransaction s = Client.SubmitAction.sent p ∧
        p.requests.length = (Client.activeRequests s.dataRequests).length ∧
        p.requests ≠ []) := by
  have htruthy : Client.truthyChainId s.displayChainId = true := by
    cases hc2 : s.displayChainId with
    | none =>
      rw [hc2] at hchain
      exact absurd hchain (by simp [Client.currentChainSupported])
    | some i =>
      rw [hc2] at hchain
      by_cases h0 : i = 0
      · subst h0
        exact absurd hchain (by simp [Client.currentChainSupported])
      · simp [Client.truthyChainId, h0]
  constructor
  · intro hempty
    simp [Client.handleSubmitTransaction, hconn, hwc, hchain, htruthy, hempty]
  · intro hne
    have hlen0 : ¬ (Client.activeRequests s.dataRequests).length = 0 := by
      rw [List.length_eq_zero]
      exact hne
    refine ⟨{ version := "1.0",
              chainIdHex := Client.numberToHex (s.displayChainId.getD 0),
              usdcAddress := Client.CHAIN_TO_USDC_ADDRESS.lookup (s.displayChainId.getD 0),
              requests := (Client.activeRequests s.dataRequests).map (fun field =>
                { type := field, optional := Client.optionalFor s.dataOptional field }),
              callbackURL := if s.callbackEnabled then
                some (s.callbackBaseURL ++ "/api/data-callback") else none }, ?_, ?_, ?_⟩
    · simp [Client.handleSubmitTransaction, hconn, hwc, hchain, htruthy, hlen0]
    · simp
    · simp only [ne_eq, List.map_eq_nil_iff]
      exact hne

/-- A submit state with nothing selected: connected, on Base Sepolia. -/
def zeroSelectionState : Client.SubmitState :=
  { displayIsConnected := true, walletClientPresent := true,
    displayChainId := some 84532,
    dataRequests := { email := false, physicalAddress := false, onchainAddress := false,
                      phoneNumber := false, name := false },
    dataOptional := { email := false, physicalAddress := false, onchainAddress := false,
                      phoneNumber := false, name := false },
    callbackEnabled := true,
    callbackBaseURL := "https://playground.invalid" }

/-- The same state with the email field selected. -/
def oneSelectionState : Client.SubmitState :=
  { zeroSelectionState with
    dataRequests := { email := true, physicalAddress := false, onchainAddress := false,
                      phoneNumber := false, name := false } }

theorem c9_submit_gate_witness :
    Client.handleSubmitTransaction zeroSelectionState =
      Client.SubmitAction.rejected "Please select at least one data request" ∧
    (∃ p, Client.handleSubmitTransaction oneSelectionState = Client.SubmitAction.sent p ∧
      p.requests.length = (Client.activeRequests oneSelectionState.dataRequests).length ∧
      p.requests ≠ []) :=
  ⟨(c9_submit_gate zeroSelectionState rfl rfl (by decide)).1 (by decide),
   (c9_submit_gate oneSelectionState rfl rfl (by decide)).2 (by decide)⟩

end SmartWalletPlayground
